import Mathlib

/-!
Verification development for the `multer-gridfs-storage` adapter.

The repository's `src/` tree holds the adapter's test-suite
(`test/connection-ready.spec.ts`, `test/file-removal.spec.ts`,
`test/file-removal-integration.spec.ts`), the `GridFile` result
interface, and test utilities; the `GridFsStorage` implementation
module they import (`../src`) is not present.  The definitions below
therefore shallowly embed the adapter's core — the connection-readiness
gate, the per-upload configuration resolver and orchestrator, and the
removal operator — modelled from the specification's description of
those components, with names and observable shapes (event names,
callback argument shapes, error-message literals) taken from the tests
where the tests pin them down.

JavaScript object identity (reference equality of error objects and
store handles, which the tests check with `t.is`) is modelled by giving
every error object and every handle a numeric identity: equality of the
Lean values is reference equality of the modelled objects.
-/

namespace GridFs

/-- A JavaScript `Error` object: `id` models the object's reference
identity (two structurally equal errors with different `id`s are
distinct objects), `message` its message. -/
structure ErrObj where
  id : Nat
  message : String
deriving DecidableEq, Repr

/-- A GridFS identifier, either the driver's binary `ObjectId` or an
equivalent hexadecimal string encoding (both accepted by the tests in
`file-removal.spec.ts`). -/
inductive MongoId where
  | oid (value : Nat)
  | strId (value : String)
deriving DecidableEq, Repr

/-- The result of a successful upload, following the `GridFile`
interface declared in the repository (`_id`, `filename`, `metadata`,
`contentType`, `chunkSize`, `bucketName`, `uploadDate`, `md5`, `size`,
`length`).  `metadata` is an opaque document modelled by an optional
identity. -/
structure FileRecord where
  id : MongoId
  filename : String
  metadata : Option Nat
  contentType : String
  chunkSize : Nat
  bucketName : String
  uploadDate : Nat
  md5 : String
  size : Nat
  length : Nat
deriving DecidableEq, Repr

/-- Terminal outcome of the readiness gate as observed by a `ready()`
caller: the resolved `(db, client)` handle pair, or the connection
error object. -/
inductive Outcome where
  | success (db client : Nat)
  | failure (e : ErrObj)
deriving DecidableEq, Repr

/-- Modelled from the spec: `ReadinessState` is the enum
`{Pending, Ready{storeHandle, clientHandle}, Failed{error}}` with the
transitions `Pending → Ready` and `Pending → Failed`, exactly once,
irreversible.  Handles are modelled by their reference identity. -/
inductive ReadinessState where
  | pending
  | ready (db client : Nat)
  | failed (e : ErrObj)
deriving DecidableEq, Repr

/-- The five lifecycle events the instance publishes: `connection`,
`connectionFailed`, `dbError`, `streamError`, `file`.  Stream and file
events are tagged with the upload they belong to. -/
inductive Event where
  | connection (db client : Nat)
  | connectionFailed (e : ErrObj)
  | dbError (e : ErrObj)
  | streamError (uid : Nat) (e : ErrObj)
  | file (uid : Nat) (r : FileRecord)
deriving DecidableEq, Repr

/-- Phase of one in-flight upload kept by the orchestrator:
`Streaming`, then terminally `Completed` or `Failed`. -/
inductive UploadPhase where
  | streaming
  | completed (r : FileRecord)
  | failed (e : ErrObj)
deriving DecidableEq, Repr

/-- Modelled from the spec: the adapter instance's mutable state — the
readiness gate (`attempted`/`attempts` counting underlying connection
attempts, the `ReadinessState`, the `db` and `client` fields that are
null until ready), the `ready()` waiters registered while pending, the
terminal outcome each `ready()` caller observed, the published event
log, and the per-upload phases. -/
structure Storage where
  attempted : Bool
  attempts : Nat
  state : ReadinessState
  db : Option Nat
  client : Option Nat
  waiters : List Nat
  outcomes : List (Nat × Outcome)
  events : List Event
  uploads : List (Nat × UploadPhase)
deriving DecidableEq, Repr

/-- The freshly constructed instance: pending, no connection attempt
yet, `db`/`client` null, nothing published. -/
def initStorage : Storage :=
  ⟨false, 0, .pending, none, none, [], [], [], []⟩

/-- One cooperative-scheduling event acting on an instance: a caller
invokes `ready()`; the single underlying connection attempt settles
(successfully or with an error); an upload enters streaming; an upload's
write or source stream errors; an upload's write stream completes. -/
inductive Cmd where
  | readyCall (caller : Nat)
  | settleOk (db client : Nat)
  | settleErr (e : ErrObj)
  | startUpload (uid : Nat)
  | streamFail (uid : Nat) (e : ErrObj)
  | streamDone (uid : Nat) (r : FileRecord)
deriving DecidableEq, Repr

/-- Rewrites every entry of upload `uid` to phase `p`. -/
def setPhase (l : List (Nat × UploadPhase)) (uid : Nat) (p : UploadPhase) :
    List (Nat × UploadPhase) :=
  l.map fun q => if q.1 = uid then (uid, p) else q

/-- Modelled from the spec: the single-threaded cooperative step
function of the missing `GridFsStorage` core.

`readyCall`: the first call triggers the normalizer exactly once
(`attempted`/`attempts`); a call while pending joins the waiters; a
call after settlement observes the cached terminal outcome.

`settleOk`: the one connection attempt resolves — the state becomes
`Ready`, the `db`/`client` fields are set, one `connection` event is
published, and every waiter observes the same `(db, client)` pair.
`settleErr`: the attempt rejects — the state becomes `Failed`, the `db`
field stays null, one `connectionFailed` event carrying the original
error is published, and every waiter observes that same error object.
Either settlement is effective only from `Pending` (the transition is
one-shot and irreversible) and only after an attempt was triggered.

`startUpload`/`streamFail`/`streamDone`: an upload enters streaming
once; the first stream error aborts only that upload and publishes one
`streamError` event; completion records the `FileRecord` and publishes
one `file` event.  Stream events on an upload that is not streaming are
ignored (a late second error after termination is ignored). -/
def step (s : Storage) : Cmd → Storage
  | .readyCall c =>
    let s1 := if s.attempted then s
              else { s with attempted := true, attempts := s.attempts + 1 }
    match s1.state with
    | .pending => { s1 with waiters := s1.waiters ++ [c] }
    | .ready d cl => { s1 with outcomes := s1.outcomes ++ [(c, .success d cl)] }
    | .failed e => { s1 with outcomes := s1.outcomes ++ [(c, .failure e)] }
  | .settleOk d cl =>
    if s.attempted then
      match s.state with
      | .pending =>
        { s with state := .ready d cl, db := some d, client := some cl,
                 events := s.events ++ [.connection d cl],
                 outcomes := s.outcomes ++ s.waiters.map (fun w => (w, .success d cl)),
                 waiters := [] }
      | _ => s
    else s
  | .settleErr e =>
    if s.attempted then
      match s.state with
      | .pending =>
        { s with state := .failed e,
                 events := s.events ++ [.connectionFailed e],
                 outcomes := s.outcomes ++ s.waiters.map (fun w => (w, .failure e)),
                 waiters := [] }
      | _ => s
    else s
  | .startUpload uid =>
    match s.uploads.lookup uid with
    | none => { s with uploads := s.uploads ++ [(uid, .streaming)] }
    | some _ => s
  | .streamFail uid e =>
    match s.uploads.lookup uid with
    | some .streaming =>
      { s with uploads := setPhase s.uploads uid (.failed e),
               events := s.events ++ [.streamError uid e] }
    | _ => s
  | .streamDone uid r =>
    match s.uploads.lookup uid with
    | some .streaming =>
      { s with uploads := setPhase s.uploads uid (.completed r),
               events := s.events ++ [.file uid r] }
    | _ => s

/-- Runs a finite cooperative schedule from the freshly constructed
instance. -/
def runCmds (cs : List Cmd) : Storage := cs.foldl step initStorage

/-- Whether a command is a `ready()` invocation. -/
def Cmd.isReady : Cmd → Bool
  | .readyCall _ => true
  | _ => false

/-- Whether an event is one of the gate's two settlement events. -/
def Event.isGate : Event → Bool
  | .connection _ _ => true
  | .connectionFailed _ => true
  | _ => false

/-- The gate-settlement events (`connection` / `connectionFailed`)
among the published events, in order. -/
def gateEvents (evs : List Event) : List Event := evs.filter Event.isGate

/-- How many `streamError` events were published for upload `uid`. -/
def streamErrCount (uid : Nat) (evs : List Event) : Nat :=
  evs.countP fun ev =>
    match ev with
    | .streamError u _ => u == uid
    | _ => false

/-- One connection form of the constructor options: an already-open
store handle, a promise of one, an already-open low-level client, or a
promise of one (each modelled by its reference identity). -/
inductive DbOption where
  | handle (id : Nat)
  | handlePromise (id : Nat)
  | client (id : Nat)
  | clientPromise (id : Nat)
deriving DecidableEq, Repr

/-- The constructor options relevant to construction-time validation: a
connection string (`url`) and/or a database option (`db`). -/
structure StorageOptions where
  url : Option String
  db : Option DbOption
deriving DecidableEq, Repr

/-- Modelled from the spec: the missing `GridFsStorage` constructor's
validation.  When both the connection string and the handle option are
absent the constructor throws synchronously — modelled as
`Except.error` returned from the constructor itself, as opposed to a
later `settleErr` on the asynchronous path — with the fixed message the
test-suite pins down (`error-handling` test `invalid configurations`).
Otherwise construction succeeds with the fresh pending instance. -/
def create (o : StorageOptions) : Except String Storage :=
  match o.url, o.db with
  | none, none =>
    .error "Error creating storage engine. At least one of url or db option must be provided."
  | _, _ => .ok initStorage

/-- The request metadata of one incoming upload (original filename and
declared content type). -/
structure Upload where
  originalname : String
  mimetype : String
deriving DecidableEq, Repr

/-- The fields a user-supplied file-settings object may carry; unset
fields take defaults. -/
structure SettingsInput where
  filename : Option String
  bucketName : Option String
  chunkSize : Option Nat
  contentType : Option String
  metadata : Option Nat
  id : Option MongoId
deriving DecidableEq, Repr

/-- The JavaScript values a file policy may resolve to: `undefined`,
`null`, a boolean, a number, a string, or a settings object. -/
inductive JsVal where
  | undef
  | jsNull
  | bool (b : Bool)
  | num (n : Int)
  | str (s : String)
  | obj (fields : SettingsInput)
deriving DecidableEq, Repr

/-- JavaScript's `typeof` operator on the modelled values (`typeof
null` is `"object"`). -/
def typeofJs : JsVal → String
  | .undef => "undefined"
  | .jsNull => "object"
  | .bool _ => "boolean"
  | .num _ => "number"
  | .str _ => "string"
  | .obj _ => "object"

/-- Canonical per-upload configuration produced by the resolver. -/
structure FileSettings where
  filename : String
  bucketName : String
  chunkSize : Nat
  contentType : String
  metadata : Option Nat
  id : Option MongoId
deriving DecidableEq, Repr

/-- The bucket name used when the settings leave it unset (GridFS's
standard bucket, as in the tests' mock file objects). -/
def defaultBucket : String := "fs"

/-- The chunk size used when the settings leave it unset (the external
store's standard 255 KiB default). -/
def defaultChunkSize : Nat := 261120

/-- The settings object all of whose fields are unset. -/
def emptySettingsInput : SettingsInput := ⟨none, none, none, none, none, none⟩

/-- Modelled from the spec: the defaults the missing resolver applies —
filename from the generated random name (the generation of random
bytes is modelled by the `generated` parameter), bucket name and chunk
size from the fixed defaults, content type from the upload's declared
type. -/
def mergeDefaults (u : Upload) (generated : String) (f : SettingsInput) : FileSettings :=
  { filename := f.filename.getD generated,
    bucketName := f.bucketName.getD defaultBucket,
    chunkSize := f.chunkSize.getD defaultChunkSize,
    contentType := f.contentType.getD u.mimetype,
    metadata := f.metadata,
    id := f.id }

/-- Modelled from the spec: the missing resolver's type validation of
the resolved policy value — absent (`undefined`/`null`) uses the
defaults, an object is merged over the defaults, and any other type is
a configuration error whose message names the offending type, with the
message literal the test-suite pins down (`error-handling` test
`invalid types as file configurations`). -/
def fileSettingsOf (u : Upload) (generated : String) : JsVal → Except ErrObj FileSettings
  | .undef => .ok (mergeDefaults u generated emptySettingsInput)
  | .jsNull => .ok (mergeDefaults u generated emptySettingsInput)
  | .obj f => .ok (mergeDefaults u generated f)
  | v => .error ⟨0, "Invalid type for file settings, got " ++ typeofJs v⟩

/-- What one invocation of a policy function does: return (or resolve
to) a value, or throw (or reject with) an error object. -/
inductive FnOutcome where
  | ret (v : JsVal)
  | thr (e : ErrObj)
deriving DecidableEq, Repr

/-- What driving a generator-style policy to its first suspension
observes: a yielded value, a plain return, or a value thrown at a
resumption point. -/
inductive GenStep where
  | yielded (v : JsVal)
  | returned (v : JsVal)
  | thrown (e : ErrObj)
deriving DecidableEq, Repr

/-- The four configured policy forms: a constant value, a plain
synchronous function, an asynchronous function (its settlement), or a
suspend/resume generator-style function (what driving it observes). -/
inductive Policy where
  | constant (v : JsVal)
  | syncFn (f : Upload → FnOutcome)
  | asyncFn (f : Upload → FnOutcome)
  | genFn (g : Upload → GenStep)

/-- Normalizes a function invocation's outcome: a thrown value is
captured, never escaping the call stack. -/
def ofOutcome : FnOutcome → Except ErrObj JsVal
  | .ret v => .ok v
  | .thr e => .error e

/-- Drives a generator-style policy: the first yielded (or returned)
value is the resolved value; a value thrown at a resumption point is
treated identically to an asynchronous rejection. -/
def driveGen : GenStep → FnOutcome
  | .yielded v => .ret v
  | .returned v => .ret v
  | .thrown e => .thr e

/-- Modelled from the spec: the missing resolver's normalization of
every policy form to one asynchronous-resolution abstraction — the
resolved value or a captured configuration error. -/
def resolvePolicy (p : Policy) (u : Upload) : Except ErrObj JsVal :=
  match p with
  | .constant v => .ok v
  | .syncFn f => ofOutcome (f u)
  | .asyncFn f => ofOutcome (f u)
  | .genFn g => ofOutcome (driveGen (g u))

/-- The full configuration resolver: normalize the policy, then
validate and default the resolved value. -/
def resolveSettings (p : Policy) (u : Upload) (generated : String) :
    Except ErrObj FileSettings :=
  (resolvePolicy p u).bind (fileSettingsOf u generated)

/-- Terminal outcome of the streaming phase: the write stream completed
with a `FileRecord`, the source stream errored, or the write stream
errored. -/
inductive StreamOutcome where
  | success (r : FileRecord)
  | sourceError (e : ErrObj)
  | writeError (e : ErrObj)
deriving DecidableEq, Repr

/-- One invocation of the upload's error-first callback:
`(error, fileRecord)`. -/
abbrev UploadCb := Option ErrObj × Option FileRecord

/-- One invocation of the removal's error-first callback:
`(error, result)` where the store's delete resolves with no value. -/
abbrev RemoveCb := Option ErrObj × Option Unit

/-- Modelled from the spec: the missing upload orchestrator
(`AwaitingReadiness → Configuring → Streaming → Completed/Failed`) as a
function from the outcome of each phase to the list of callback
invocations it performs.  A readiness failure fails the upload with the
connection error without configuring or streaming; a configuration
error fails it; otherwise the first stream error (from either side)
fails it and a completed write stream succeeds it with the
`FileRecord`. -/
def orchestrate (ready : Outcome) (p : Policy) (u : Upload) (generated : String)
    (stream : StreamOutcome) : List UploadCb :=
  match ready with
  | .failure e => [(some e, none)]
  | .success _ _ =>
    match resolveSettings p u generated with
    | .error e => [(some e, none)]
    | .ok _ =>
      match stream with
      | .success r => [(none, some r)]
      | .sourceError e => [(some e, none)]
      | .writeError e => [(some e, none)]

/-- The `(id, bucketName)` pair of the file object handed to
`_removeFile`; the identifier may be entirely absent (`undefined`). -/
structure RemovalTarget where
  id : Option MongoId
  bucketName : String
deriving DecidableEq, Repr

/-- One delete issued against the external store: the bucket it is
scoped to and the identifier passed through. -/
structure DeleteCall where
  bucketName : String
  id : Option MongoId
deriving DecidableEq, Repr

/-- Modelled from the spec: the missing `_removeFile(request, file,
cb)` — open a bucket scoped to `file.bucketName`, call the store's
`delete` with `file.id` passed through without pre-validation, and
forward the settlement to the callback: `cb(null, undefined)` on
success, `cb(error, null)` on rejection with the store's error object
propagated verbatim (shapes pinned down by `file-removal.spec.ts`).
The store's behaviour is the `deleteOutcome` parameter; the result
lists the delete calls issued and the callback invocations made. -/
def removeFile (deleteOutcome : Except ErrObj Unit) (file : RemovalTarget) :
    List DeleteCall × List RemoveCb :=
  ([⟨file.bucketName, file.id⟩],
   match deleteOutcome with
   | .ok _ => [(none, none)]
   | .error e => [(some e, none)])

/-- Invariant of the readiness gate: the underlying connection was
attempted at most once; while pending nothing was published and no
outcome was observed; once settled the `db`/`client` fields, the single
published gate event, and every observed outcome all agree with the one
terminal state. -/
def GateInv (s : Storage) : Prop :=
  s.attempts = (if s.attempted then 1 else 0) ∧
  ((s.state = .pending ∧ s.db = none ∧ s.client = none ∧
      gateEvents s.events = [] ∧ s.outcomes = []) ∨
   (∃ d c, s.state = .ready d c ∧ s.attempted = true ∧
      s.db = some d ∧ s.client = some c ∧
      gateEvents s.events = [.connection d c] ∧ s.waiters = [] ∧
      ∀ p ∈ s.outcomes, p.2 = Outcome.success d c) ∨
   (∃ e, s.state = .failed e ∧ s.attempted = true ∧
      s.db = none ∧ s.client = none ∧
      gateEvents s.events = [.connectionFailed e] ∧ s.waiters = [] ∧
      ∀ p ∈ s.outcomes, p.2 = Outcome.failure e))

@[simp] lemma gateEvents_append (l l' : List Event) :
    gateEvents (l ++ l') = gateEvents l ++ gateEvents l' := by
  simp [gateEvents]

@[simp] lemma gateEvents_nil : gateEvents [] = [] := rfl

@[simp] lemma gateEvents_connection (d c : Nat) :
    gateEvents [Event.connection d c] = [Event.connection d c] := rfl

@[simp] lemma gateEvents_connectionFailed (e : ErrObj) :
    gateEvents [Event.connectionFailed e] = [Event.connectionFailed e] := rfl

@[simp] lemma gateEvents_streamError (uid : Nat) (e : ErrObj) :
    gateEvents [Event.streamError uid e] = [] := rfl

@[simp] lemma gateEvents_file (uid : Nat) (r : FileRecord) :
    gateEvents [Event.file uid r] = [] := rfl

lemma gateInv_init : GateInv initStorage := by
  refine ⟨rfl, .inl ⟨rfl, rfl, rfl, rfl, rfl⟩⟩

lemma gateInv_step (s : Storage) (c : Cmd) (h : GateInv s) : GateInv (step s c) := by
  obtain ⟨ha, hcase⟩ := h
  cases c with
  | readyCall caller =>
    by_cases hA : s.attempted
    · rcases hcase with ⟨hst, hdb, hcl, hev, hout⟩ |
        ⟨d, cl, hst, hat, hdb, hcl, hev, hw, hout⟩ |
        ⟨e, hst, hat, hdb, hcl, hev, hw, hout⟩
      · simp only [step, if_pos hA, hst]
        exact ⟨ha, .inl ⟨rfl, hdb, hcl, hev, hout⟩⟩
      · simp only [step, if_pos hA, hst]
        refine ⟨ha, .inr (.inl ⟨d, cl, rfl, hat, hdb, hcl, hev, hw, ?_⟩)⟩
        intro p hp
        rcases List.mem_append.mp hp with hp | hp
        · exact hout p hp
        · rcases List.mem_singleton.mp hp with rfl; rfl
      · simp only [step, if_pos hA, hst]
        refine ⟨ha, .inr (.inr ⟨e, rfl, hat, hdb, hcl, hev, hw, ?_⟩)⟩
        intro p hp
        rcases List.mem_append.mp hp with hp | hp
        · exact hout p hp
        · rcases List.mem_singleton.mp hp with rfl; rfl
    · rcases hcase with ⟨hst, hdb, hcl, hev, hout⟩ |
        ⟨d, cl, hst, hat, hdb, hcl, hev, hw, hout⟩ |
        ⟨e, hst, hat, hdb, hcl, hev, hw, hout⟩
      · simp only [step, if_neg hA, hst]
        rw [if_neg hA] at ha
        exact ⟨by simp [ha], .inl ⟨rfl, hdb, hcl, hev, hout⟩⟩
      · exact absurd hat hA
      · exact absurd hat hA
  | settleOk d cl =>
    by_cases hA : s.attempted
    · rcases hcase with ⟨hst, hdb, hcl, hev, hout⟩ |
        ⟨d0, c0, hst, hat, hdb, hcl, hev, hw, hout⟩ |
        ⟨e0, hst, hat, hdb, hcl, hev, hw, hout⟩
      · simp only [step, if_pos hA, hst]
        refine ⟨ha, .inr (.inl ⟨d, cl, rfl, hA, rfl, rfl, ?_, rfl, ?_⟩)⟩
        · simp [hev]
        · intro p hp
          rcases List.mem_append.mp hp with hp | hp
          · rw [hout] at hp
            exact absurd hp (List.not_mem_nil p)
          · rcases List.mem_map.mp hp with ⟨w, _, rfl⟩; rfl
      · simp only [step, if_pos hA, hst]
        exact ⟨ha, .inr (.inl ⟨d0, c0, hst, hat, hdb, hcl, hev, hw, hout⟩)⟩
      · simp only [step, if_pos hA, hst]
        exact ⟨ha, .inr (.inr ⟨e0, hst, hat, hdb, hcl, hev, hw, hout⟩)⟩
    · simp only [step, if_neg hA]
      exact ⟨ha, hcase⟩
  | settleErr e =>
    by_cases hA : s.attempted
    · rcases hcase with ⟨hst, hdb, hcl, hev, hout⟩ |
        ⟨d0, c0, hst, hat, hdb, hcl, hev, hw, hout⟩ |
        ⟨e0, hst, hat, hdb, hcl, hev, hw, hout⟩
      · simp only [step, if_pos hA, hst]
        refine ⟨ha, .inr (.inr ⟨e, rfl, hA, hdb, hcl, ?_, rfl, ?_⟩)⟩
        · simp [hev]
        · intro p hp
          rcases List.mem_append.mp hp with hp | hp
          · rw [hout] at hp
            exact absurd hp (List.not_mem_nil p)
          · rcases List.mem_map.mp hp with ⟨w, _, rfl⟩; rfl
      · simp only [step, if_pos hA, hst]
        exact ⟨ha, .inr (.inl ⟨d0, c0, hst, hat, hdb, hcl, hev, hw, hout⟩)⟩
      · simp only [step, if_pos hA, hst]
        exact ⟨ha, .inr (.inr ⟨e0, hst, hat, hdb, hcl, hev, hw, hout⟩)⟩
    · simp only [step, if_neg hA]
      exact ⟨ha, hcase⟩
  | startUpload uid =>
    cases hl : s.uploads.lookup uid with
    | none =>
      simp only [step, hl]
      exact ⟨ha, hcase⟩
    | some ph =>
      simp only [step, hl]
      exact ⟨ha, hcase⟩
  | streamFail uid e =>
    cases hl : s.uploads.lookup uid with
    | none =>
      simp only [step, hl]
      exact ⟨ha, hcase⟩
    | some ph =>
      cases ph with
      | streaming =>
        simp only [step, hl]
        refine ⟨ha, ?_⟩
        rcases hcase with ⟨hst, hdb, hcl, hev, hout⟩ |
          ⟨d0, c0, hst, hat, hdb, hcl, hev, hw, hout⟩ |
          ⟨e0, hst, hat, hdb, hcl, hev, hw, hout⟩
        · exact .inl ⟨hst, hdb, hcl, by simp [hev], hout⟩
        · exact .inr (.inl ⟨d0, c0, hst, hat, hdb, hcl, by simp [hev], hw, hout⟩)
        · exact .inr (.inr ⟨e0, hst, hat, hdb, hcl, by simp [hev], hw, hout⟩)
      | completed r =>
        simp only [step, hl]
        exact ⟨ha, hcase⟩
      | failed e0 =>
        simp only [step, hl]
        exact ⟨ha, hcase⟩
  | streamDone uid r =>
    cases hl : s.uploads.lookup uid with
    | none =>
      simp only [step, hl]
      exact ⟨ha, hcase⟩
    | some ph =>
      cases ph with
      | streaming =>
        simp only [step, hl]
        refine ⟨ha, ?_⟩
        rcases hcase with ⟨hst, hdb, hcl, hev, hout⟩ |
          ⟨d0, c0, hst, hat, hdb, hcl, hev, hw, hout⟩ |
          ⟨e0, hst, hat, hdb, hcl, hev, hw, hout⟩
        · exact .inl ⟨hst, hdb, hcl, by simp [hev], hout⟩
        · exact .inr (.inl ⟨d0, c0, hst, hat, hdb, hcl, by simp [hev], hw, hout⟩)
        · exact .inr (.inr ⟨e0, hst, hat, hdb, hcl, by simp [hev], hw, hout⟩)
      | completed r0 =>
        simp only [step, hl]
        exact ⟨ha, hcase⟩
      | failed e0 =>
        simp only [step, hl]
        exact ⟨ha, hcase⟩

lemma gateInv_foldl (cs : List Cmd) (s : Storage) (h : GateInv s) :
    GateInv (cs.foldl step s) := by
  induction cs generalizing s with
  | nil => exact h
  | cons c cs ih => exact ih (step s c) (gateInv_step s c h)

lemma gateInv_run (cs : List Cmd) : GateInv (runCmds cs) :=
  gateInv_foldl cs initStorage gateInv_init

lemma attempted_step (s : Storage) (c : Cmd) :
    (step s c).attempted = (s.attempted || Cmd.isReady c) := by
  cases c with
  | readyCall caller =>
    by_cases hA : s.attempted
    · cases hst : s.state <;> simp [step, if_pos hA, hst, Cmd.isReady, hA]
    · cases hst : s.state <;> simp [step, if_neg hA, hst, Cmd.isReady]
  | settleOk d cl =>
    by_cases hA : s.attempted
    · cases hst : s.state <;> simp [step, if_pos hA, hst, Cmd.isReady]
    · simp [step, if_neg hA, Cmd.isReady]
  | settleErr e =>
    by_cases hA : s.attempted
    · cases hst : s.state <;> simp [step, if_pos hA, hst, Cmd.isReady]
    · simp [step, if_neg hA, Cmd.isReady]
  | startUpload uid =>
    cases hl : s.uploads.lookup uid <;> simp [step, hl, Cmd.isReady]
  | streamFail uid e =>
    cases hl : s.uploads.lookup uid with
    | none => simp [step, hl, Cmd.isReady]
    | some ph => cases ph <;> simp [step, hl, Cmd.isReady]
  | streamDone uid r =>
    cases hl : s.uploads.lookup uid with
    | none => simp [step, hl, Cmd.isReady]
    | some ph => cases ph <;> simp [step, hl, Cmd.isReady]

lemma attempted_foldl (cs : List Cmd) (s : Storage) :
    (cs.foldl step s).attempted = (s.attempted || cs.any Cmd.isReady) := by
  induction cs generalizing s with
  | nil => simp
  | cons c cs ih =>
    rw [List.foldl_cons, ih (step s c), attempted_step, List.any_cons,
      Bool.or_assoc]

lemma attempted_run (cs : List Cmd) :
    (runCmds cs).attempted = cs.any Cmd.isReady := by
  rw [runCmds, attempted_foldl]
  rfl

/-- Invariant of the per-upload stream-error accounting: exactly one
`streamError` event has been published for an upload that failed, and
none for any other upload identifier. -/
def UploadInv (s : Storage) : Prop :=
  ∀ uid, streamErrCount uid s.events =
    (match s.uploads.lookup uid with
     | some (.failed _) => 1
     | _ => 0)

@[simp] lemma streamErrCount_append (uid : Nat) (l l' : List Event) :
    streamErrCount uid (l ++ l') = streamErrCount uid l + streamErrCount uid l' := by
  simp [streamErrCount, List.countP_append]

@[simp] lemma streamErrCount_nil (uid : Nat) : streamErrCount uid [] = 0 := rfl

@[simp] lemma streamErrCount_connection (uid d c : Nat) :
    streamErrCount uid [Event.connection d c] = 0 := rfl

@[simp] lemma streamErrCount_connectionFailed (uid : Nat) (e : ErrObj) :
    streamErrCount uid [Event.connectionFailed e] = 0 := rfl

@[simp] lemma streamErrCount_file (uid uid' : Nat) (r : FileRecord) :
    streamErrCount uid [Event.file uid' r] = 0 := rfl

lemma streamErrCount_streamError (uid uid' : Nat) (e : ErrObj) :
    streamErrCount uid [Event.streamError uid' e] = (if uid' = uid then 1 else 0) := by
  by_cases h : uid' = uid
  · simp [streamErrCount, List.countP, List.countP.go, h]
  · have hb : (uid' == uid) = false := beq_eq_false_iff_ne.mpr h
    simp [streamErrCount, List.countP, List.countP.go, hb, h]

@[simp] lemma lookup_cons (a k : Nat) (v : UploadPhase) (l : List (Nat × UploadPhase)) :
    ((k, v) :: l).lookup a = if a = k then some v else l.lookup a := by
  by_cases h : a = k
  · simp [List.lookup, h]
  · have hb : (a == k) = false := beq_eq_false_iff_ne.mpr h
    simp [List.lookup, hb, h]

@[simp] lemma setPhase_nil (uid : Nat) (p : UploadPhase) : setPhase [] uid p = [] := rfl

@[simp] lemma setPhase_cons (k : Nat) (v : UploadPhase) (l : List (Nat × UploadPhase))
    (uid : Nat) (p : UploadPhase) :
    setPhase ((k, v) :: l) uid p
      = (if k = uid then (uid, p) else (k, v)) :: setPhase l uid p := rfl

lemma lookup_append_right (l l' : List (Nat × UploadPhase)) (uid : Nat)
    (h : l.lookup uid = none) : (l ++ l').lookup uid = l'.lookup uid := by
  induction l with
  | nil => rfl
  | cons q l ih =>
    rcases q with ⟨k, v⟩
    by_cases hk : uid = k
    · simp [hk] at h
    · rw [lookup_cons, if_neg hk] at h
      rw [List.cons_append, lookup_cons, if_neg hk]
      exact ih h

lemma lookup_append_left (l l' : List (Nat × UploadPhase)) (uid : Nat) (v : UploadPhase)
    (h : l.lookup uid = some v) : (l ++ l').lookup uid = some v := by
  induction l with
  | nil => simp at h
  | cons q l ih =>
    rcases q with ⟨k, w⟩
    rw [List.cons_append, lookup_cons]
    rw [lookup_cons] at h
    by_cases hk : uid = k
    · rw [if_pos hk] at h ⊢
      exact h
    · rw [if_neg hk] at h ⊢
      exact ih h

lemma lookup_setPhase_self (l : List (Nat × UploadPhase)) (uid : Nat) (p : UploadPhase)
    (q : UploadPhase) (h : l.lookup uid = some q) :
    (setPhase l uid p).lookup uid = some p := by
  induction l with
  | nil => simp at h
  | cons a l ih =>
    rcases a with ⟨k, v⟩
    by_cases hk : k = uid
    · simp [hk]
    · have hk' : uid ≠ k := fun hh => hk hh.symm
      simp [hk, hk'] at h ⊢
      exact ih h

lemma lookup_setPhase_ne (l : List (Nat × UploadPhase)) (uid : Nat) (p : UploadPhase)
    (uid' : Nat) (h : uid' ≠ uid) :
    (setPhase l uid p).lookup uid' = l.lookup uid' := by
  induction l with
  | nil => rfl
  | cons a l ih =>
    rcases a with ⟨k, v⟩
    by_cases hk : k = uid
    · subst hk
      simp [h, ih]
    · simp [hk]
      by_cases hk' : uid' = k
      · simp [hk']
      · simp [hk', ih]

lemma uploadInv_init : UploadInv initStorage := fun _ => rfl

lemma uploadInv_step (s : Storage) (c : Cmd) (h : UploadInv s) : UploadInv (step s c) := by
  cases c with
  | readyCall caller =>
    by_cases hA : s.attempted
    · cases hst : s.state <;> simp only [step, if_pos hA, hst] <;> exact h
    · cases hst : s.state <;> simp only [step, if_neg hA, hst] <;> exact h
  | settleOk d cl =>
    by_cases hA : s.attempted
    · cases hst : s.state with
      | pending =>
        simp only [step, if_pos hA, hst]
        intro uid
        simpa using h uid
      | ready d0 c0 => simp only [step, if_pos hA, hst]; exact h
      | failed e0 => simp only [step, if_pos hA, hst]; exact h
    · simp only [step, if_neg hA]; exact h
  | settleErr e =>
    by_cases hA : s.attempted
    · cases hst : s.state with
      | pending =>
        simp only [step, if_pos hA, hst]
        intro uid
        simpa using h uid
      | ready d0 c0 => simp only [step, if_pos hA, hst]; exact h
      | failed e0 => simp only [step, if_pos hA, hst]; exact h
    · simp only [step, if_neg hA]; exact h
  | startUpload uid0 =>
    cases hl : s.uploads.lookup uid0 with
    | none =>
      simp only [step, hl]
      intro uid
      cases hu : s.uploads.lookup uid with
      | some v =>
        rw [lookup_append_left s.uploads _ uid v hu]
        have := h uid
        rw [hu] at this
        exact this
      | none =>
        rw [lookup_append_right s.uploads _ uid hu]
        have := h uid
        rw [hu] at this
        by_cases huid : uid = uid0
        · subst huid
          simp [this]
        · simp [huid, this]
    | some ph =>
      simp only [step, hl]
      exact h
  | streamFail uid0 e =>
    cases hl : s.uploads.lookup uid0 with
    | none => simp only [step, hl]; exact h
    | some ph =>
      cases ph with
      | streaming =>
        simp only [step, hl]
        intro uid
        by_cases huid : uid = uid0
        · subst huid
          rw [lookup_setPhase_self s.uploads uid (.failed e) .streaming hl]
          have := h uid
          rw [hl] at this
          simp [streamErrCount_streamError, this]
        · rw [lookup_setPhase_ne s.uploads uid0 (.failed e) uid huid]
          have hne : uid0 ≠ uid := fun hh => huid hh.symm
          simp [streamErrCount_streamError, hne, h uid]
      | completed r0 => simp only [step, hl]; exact h
      | failed e0 => simp only [step, hl]; exact h
  | streamDone uid0 r =>
    cases hl : s.uploads.lookup uid0 with
    | none => simp only [step, hl]; exact h
    | some ph =>
      cases ph with
      | streaming =>
        simp only [step, hl]
        intro uid
        by_cases huid : uid = uid0
        · subst huid
          rw [lookup_setPhase_self s.uploads uid (.completed r) .streaming hl]
          have := h uid
          rw [hl] at this
          simp [this]
        · rw [lookup_setPhase_ne s.uploads uid0 (.completed r) uid huid]
          simp [h uid]
      | completed r0 => simp only [step, hl]; exact h
      | failed e0 => simp only [step, hl]; exact h

lemma uploadInv_foldl (cs : List Cmd) (s : Storage) (h : UploadInv s) :
    UploadInv (cs.foldl step s) := by
  induction cs generalizing s with
  | nil => exact h
  | cons c cs ih => exact ih (step s c) (uploadInv_step s c h)

lemma uploadInv_run (cs : List Cmd) : UploadInv (runCmds cs) :=
  uploadInv_foldl cs initStorage uploadInv_init

/-- C1: over every cooperative schedule, any number of `ready()` calls
— before or after the settlement — trigger at most one underlying
connection attempt (exactly one when some call was made), and every
pair of observed terminal outcomes is equal: the identical resolved
value on success, the identical error object (by reference identity)
on failure. -/
theorem C1_ready_idempotent (cs : List Cmd) :
    (runCmds cs).attempts ≤ 1 ∧
    ((runCmds cs).attempts = 1 ↔ cs.any Cmd.isReady = true) ∧
    List.Pairwise (fun p q : Nat × Outcome => p.2 = q.2) (runCmds cs).outcomes := by
  obtain ⟨ha, hcase⟩ := gateInv_run cs
  have hat := attempted_run cs
  refine ⟨?_, ?_, ?_⟩
  · rw [ha]
    by_cases hA : (runCmds cs).attempted <;> simp [hA]
  · rw [ha, hat]
    by_cases h : cs.any Cmd.isReady = true <;> simp [h]
  · rcases hcase with ⟨_, _, _, _, hout⟩ |
      ⟨d, c, _, _, _, _, _, _, hout⟩ | ⟨e, _, _, _, _, _, _, hout⟩
    · rw [hout]
      exact List.Pairwise.nil
    · exact List.pairwise_of_forall_mem_list fun a hma b hmb => by
        rw [hout a hma, hout b hmb]
    · exact List.pairwise_of_forall_mem_list fun a hma b hmb => by
        rw [hout a hma, hout b hmb]

/-- C2: constructing with neither a connection string nor a database
option fails synchronously — the constructor itself returns the error
rather than the asynchronous path — with exactly the message
`Error creating storage engine. At least one of url or db option must
be provided.`. -/
theorem C2_construct_validation (o : StorageOptions)
    (hu : o.url = none) (hd : o.db = none) :
    create o = .error
      "Error creating storage engine. At least one of url or db option must be provided." := by
  obtain ⟨url, db⟩ := o
  cases hu
  cases hd
  rfl

/-- Witness for C2 at the concrete empty options object. -/
theorem C2_construct_validation_witness :
    create ⟨none, none⟩ = .error
      "Error creating storage engine. At least one of url or db option must be provided." :=
  C2_construct_validation ⟨none, none⟩ rfl rfl

/-- C3: on every schedule whose connection attempt failed, the
instance published `connectionFailed` exactly once (it is the only
gate-settlement event), carrying the original rejection error object,
the `db` field is null, and every `ready()` caller observed that same
error object. -/
theorem C3_connection_failure (cs : List Cmd) (e : ErrObj)
    (h : (runCmds cs).state = .failed e) :
    (runCmds cs).db = none ∧
    gateEvents (runCmds cs).events = [Event.connectionFailed e] ∧
    ∀ p ∈ (runCmds cs).outcomes, p.2 = Outcome.failure e := by
  obtain ⟨_, hcase⟩ := gateInv_run cs
  rcases hcase with ⟨hst, _⟩ | ⟨d, c, hst, _⟩ |
    ⟨e0, hst, _, hdb, _, hev, _, hout⟩
  · have := h.symm.trans hst
    simp at this
  · have := h.symm.trans hst
    simp at this
  · have he : e0 = e := by
      have := hst.symm.trans h
      exact (ReadinessState.failed.injEq e0 e).mp this
    subst he
    exact ⟨hdb, hev, hout⟩

/-- Witness for C3: a caller awaits, the connection rejects with a
concrete error object, a late caller awaits again. -/
theorem C3_connection_failure_witness :
    (runCmds [Cmd.readyCall 0, Cmd.settleErr ⟨7, "Failed promise"⟩,
        Cmd.readyCall 1]).db = none ∧
    gateEvents (runCmds [Cmd.readyCall 0, Cmd.settleErr ⟨7, "Failed promise"⟩,
        Cmd.readyCall 1]).events = [Event.connectionFailed ⟨7, "Failed promise"⟩] :=
  ⟨(C3_connection_failure
      [Cmd.readyCall 0, Cmd.settleErr ⟨7, "Failed promise"⟩, Cmd.readyCall 1]
      ⟨7, "Failed promise"⟩ rfl).1,
   (C3_connection_failure
      [Cmd.readyCall 0, Cmd.settleErr ⟨7, "Failed promise"⟩, Cmd.readyCall 1]
      ⟨7, "Failed promise"⟩ rfl).2.1⟩

/-- C6: on every schedule whose connection succeeded with the pair
`(d, c)`, the instance's `db` field is exactly `some d` (non-null) and
its `client` field exactly `some c`, the `connection` event carrying
that pair was published exactly once (it is the only gate-settlement
event), and every `ready()` caller — early or late — observed that
same resolved pair. -/
theorem C6_connection_success (cs : List Cmd) (d c : Nat)
    (h : (runCmds cs).state = .ready d c) :
    (runCmds cs).db = some d ∧
    (runCmds cs).client = some c ∧
    gateEvents (runCmds cs).events = [Event.connection d c] ∧
    ∀ p ∈ (runCmds cs).outcomes, p.2 = Outcome.success d c := by
  obtain ⟨_, hcase⟩ := gateInv_run cs
  rcases hcase with ⟨hst, _⟩ | ⟨d0, c0, hst, _, hdb, hcl, hev, _, hout⟩ |
    ⟨e0, hst, _⟩
  · have := h.symm.trans hst
    simp at this
  · have hdc : d0 = d ∧ c0 = c := by
      have := hst.symm.trans h
      exact (ReadinessState.ready.injEq d0 c0 d c).mp this
    obtain ⟨rfl, rfl⟩ := hdc
    exact ⟨hdb, hcl, hev, hout⟩
  · have := h.symm.trans hst
    simp at this

/-- Witness for C6: a caller awaits, the connection resolves with the
concrete pair `(5, 9)`, a late caller awaits again. -/
theorem C6_connection_success_witness :
    (runCmds [Cmd.readyCall 0, Cmd.settleOk 5 9, Cmd.readyCall 1]).db = some 5 ∧
    (runCmds [Cmd.readyCall 0, Cmd.settleOk 5 9, Cmd.readyCall 1]).client = some 9 ∧
    gateEvents (runCmds [Cmd.readyCall 0, Cmd.settleOk 5 9, Cmd.readyCall 1]).events
      = [Event.connection 5 9] :=
  ⟨(C6_connection_success [Cmd.readyCall 0, Cmd.settleOk 5 9, Cmd.readyCall 1]
      5 9 rfl).1,
   (C6_connection_success [Cmd.readyCall 0, Cmd.settleOk 5 9, Cmd.readyCall 1]
      5 9 rfl).2.1,
   (C6_connection_success [Cmd.readyCall 0, Cmd.settleOk 5 9, Cmd.readyCall 1]
      5 9 rfl).2.2.1⟩

/-- C4: a file policy resolving to a boolean makes the upload fail
with a configuration error whose message is exactly
`Invalid type for file settings, got boolean`, delivered through the
upload's callback; numbers and strings likewise yield the error naming
their type. -/
theorem C4_invalid_settings_type (d c : Nat) (u : Upload) (generated : String)
    (stream : StreamOutcome) (b : Bool) (n : Int) (t : String) :
    orchestrate (.success d c) (.syncFn fun _ => .ret (.bool b)) u generated stream
      = [(some ⟨0, "Invalid type for file settings, got boolean"⟩, none)] ∧
    fileSettingsOf u generated (.num n)
      = .error ⟨0, "Invalid type for file settings, got number"⟩ ∧
    fileSettingsOf u generated (.str t)
      = .error ⟨0, "Invalid type for file settings, got string"⟩ :=
  ⟨rfl, rfl, rfl⟩

/-- C5: a policy function that throws has the thrown error object
captured and surfaced as the upload's configuration error through the
callback — never escaping the call stack — and identically so for a
synchronous function, an asynchronous function, and a generator-style
function throwing at a resumption point. -/
theorem C5_policy_throw_captured (d c : Nat) (u : Upload) (generated : String)
    (stream : StreamOutcome) (e : ErrObj) :
    orchestrate (.success d c) (.syncFn fun _ => .thr e) u generated stream
      = [(some e, none)] ∧
    orchestrate (.success d c) (.asyncFn fun _ => .thr e) u generated stream
      = [(some e, none)] ∧
    orchestrate (.success d c) (.genFn fun _ => .thrown e) u generated stream
      = [(some e, none)] :=
  ⟨rfl, rfl, rfl⟩

/-- C7: for every file record, `_removeFile` issues exactly one delete
against the external store, scoped to the record's bucket with the
record's identifier passed through unvalidated (whatever its
representation — binary `ObjectId`, string encoding, or absent), and
propagates the store's rejection error object verbatim to its callback
without swallowing or retrying. -/
theorem C7_remove_delete_scoped (out : Except ErrObj Unit) (file : RemovalTarget)
    (e : ErrObj) :
    (removeFile out file).1 = [⟨file.bucketName, file.id⟩] ∧
    (removeFile (Except.error e) file).2 = [(some e, (none : Option Unit))] ∧
    (removeFile (Except.ok ()) file).2
      = [((none : Option ErrObj), (none : Option Unit))] :=
  ⟨rfl, rfl, rfl⟩

/-- C8: for every upload (any readiness outcome, any policy, any
stream outcome) and every removal (any store outcome), the terminal
callback is invoked exactly once, and its single invocation is either
a success carrying no error or a failure carrying an error and no
result — never both. -/
theorem C8_exactly_once_callback (ready : Outcome) (p : Policy) (u : Upload)
    (generated : String) (stream : StreamOutcome) (out : Except ErrObj Unit)
    (file : RemovalTarget) :
    ((orchestrate ready p u generated stream).length = 1 ∧
      ((∃ e, orchestrate ready p u generated stream = [(some e, none)]) ∨
       (∃ r, orchestrate ready p u generated stream = [(none, some r)]))) ∧
    ((removeFile out file).2.length = 1 ∧
      ((∃ e, (removeFile out file).2 = [(some e, none)]) ∨
       (removeFile out file).2 = [(none, none)])) := by
  constructor
  · cases ready with
    | failure e => exact ⟨rfl, .inl ⟨e, rfl⟩⟩
    | success d c =>
      cases hq : resolveSettings p u generated with
      | error e =>
        simp only [orchestrate, hq]
        exact ⟨rfl, .inl ⟨e, rfl⟩⟩
      | ok fs =>
        cases stream with
        | success r =>
          simp only [orchestrate, hq]
          exact ⟨rfl, .inr ⟨r, rfl⟩⟩
        | sourceError e =>
          simp only [orchestrate, hq]
          exact ⟨rfl, .inl ⟨e, rfl⟩⟩
        | writeError e =>
          simp only [orchestrate, hq]
          exact ⟨rfl, .inl ⟨e, rfl⟩⟩
  · cases out with
    | ok v => exact ⟨rfl, .inr rfl⟩
    | error e => exact ⟨rfl, .inl ⟨e, rfl⟩⟩

/-- C9: a write- or source-stream error on a streaming upload
publishes the `streamError` event for exactly that upload — exactly
once across the whole schedule — and aborts only that upload: the
readiness gate's state, `db`, `client`, attempt count, and every
`ready()` outcome are unchanged, and every other upload's phase is
unchanged. -/
theorem C9_stream_error_frame (cs : List Cmd) (uid : Nat) (e : ErrObj)
    (h : (runCmds cs).uploads.lookup uid = some UploadPhase.streaming) :
    (step (runCmds cs) (Cmd.streamFail uid e)).events
        = (runCmds cs).events ++ [Event.streamError uid e] ∧
    streamErrCount uid (step (runCmds cs) (Cmd.streamFail uid e)).events = 1 ∧
    (step (runCmds cs) (Cmd.streamFail uid e)).state = (runCmds cs).state ∧
    (step (runCmds cs) (Cmd.streamFail uid e)).db = (runCmds cs).db ∧
    (step (runCmds cs) (Cmd.streamFail uid e)).client = (runCmds cs).client ∧
    (step (runCmds cs) (Cmd.streamFail uid e)).attempts = (runCmds cs).attempts ∧
    (step (runCmds cs) (Cmd.streamFail uid e)).outcomes = (runCmds cs).outcomes ∧
    (step (runCmds cs) (Cmd.streamFail uid e)).uploads.lookup uid
        = some (UploadPhase.failed e) ∧
    ∀ uid2, uid2 ≠ uid →
      (step (runCmds cs) (Cmd.streamFail uid e)).uploads.lookup uid2
        = (runCmds cs).uploads.lookup uid2 := by
  have hcount : streamErrCount uid (runCmds cs).events = 0 := by
    have hI := uploadInv_run cs uid
    rw [h] at hI
    exact hI
  have hstep : step (runCmds cs) (Cmd.streamFail uid e)
      = { runCmds cs with
            uploads := setPhase (runCmds cs).uploads uid (.failed e),
            events := (runCmds cs).events ++ [Event.streamError uid e] } := by
    simp only [step, h]
  rw [hstep]
  refine ⟨rfl, ?_, rfl, rfl, rfl, rfl, rfl, ?_, ?_⟩
  · show streamErrCount uid ((runCmds cs).events ++ [Event.streamError uid e]) = 1
    simp [streamErrCount_streamError, hcount]
  · exact lookup_setPhase_self (runCmds cs).uploads uid (.failed e) .streaming h
  · intro uid2 h2
    exact lookup_setPhase_ne (runCmds cs).uploads uid (.failed e) uid2 h2

/-- Witness for C9: upload 3 is streaming, its stream errors with a
concrete error object. -/
theorem C9_stream_error_frame_witness :
    streamErrCount 3 (step (runCmds [Cmd.startUpload 3])
        (Cmd.streamFail 3 ⟨2, "Stream error"⟩)).events = 1 ∧
    (step (runCmds [Cmd.startUpload 3])
        (Cmd.streamFail 3 ⟨2, "Stream error"⟩)).uploads.lookup 3
      = some (UploadPhase.failed ⟨2, "Stream error"⟩) :=
  ⟨(C9_stream_error_frame [Cmd.startUpload 3] 3 ⟨2, "Stream error"⟩ rfl).2.1,
   (C9_stream_error_frame [Cmd.startUpload 3] 3
      ⟨2, "Stream error"⟩ rfl).2.2.2.2.2.2.2.1⟩

/-- C10: a file record whose identifier is entirely absent still has
the delete issued with the absent identifier — no guard or pre-check —
and the removal completes through its callback (exactly one
invocation) without throwing. -/
theorem C10_remove_missing_id (out : Except ErrObj Unit) (bucket : String) :
    (removeFile out ⟨none, bucket⟩).1 = [⟨bucket, (none : Option MongoId)⟩] ∧
    (removeFile out ⟨none, bucket⟩).2.length = 1 := by
  refine ⟨rfl, ?_⟩
  cases out <;> rfl

end GridFs
